import Mathlib

/-!
Verification of the live-preview synchronization engine of `omd`
(`src/main.rs`), a markdown live-preview server.

The shallow embedding below translates the parts of `src/main.rs` that the
claims are about:

* the Content Store: `AppState.html_content` behind an `Arc<RwLock<String>>`
  (`main.rs` lines 289-296, written at lines 342-348, read at 379-389);
* the Revision Broadcaster: `tokio::sync::broadcast::channel::<()>(100)`
  (line 163) with its ring-buffer drop-oldest semantics, and the
  `while let Ok(_) = rx.recv().await` consumption loop of `event_stream`
  (lines 140-148);
* the Source Watcher loop `watch_markdown_file` (lines 298-361);
* server startup `run_server_mode` (lines 150-211) and the static mode
  input selection (lines 50-69);
* the render pipeline `render_markdown_to_html` /
  `render_inline_latex_to_html` / `render_display_latex_to_html`
  (lines 220-266), with the external pulldown-cmark / pulldown-latex
  libraries abstracted as function parameters.

Machine integers: the only integer in play is the broadcast send counter,
modelled as `Nat` (it only ever increments; no overflow-relevant arithmetic
appears in the source).
-/

/-- The embedded assets of `Fonts` (`main.rs` 273-278); the base64 payloads
are opaque strings here. -/
structure Fonts where
  font_regular : String
  font_medium : String
  font_light : String
  favicon : String
deriving DecidableEq

/-- State of the sender side of `tokio::sync::broadcast::channel::<()>(100)`
(`main.rs` line 163).  All messages are `()`, so the queue content is fully
described by how many messages have been sent; `receivers` is the number of
currently subscribed receivers. -/
structure Channel where
  sendCount : Nat
  receivers : Nat
deriving DecidableEq

/-- Result of `broadcast::Sender::send`: `Err` exactly when there is no
active receiver (tokio semantics; the value is then dropped and the channel
is unchanged), otherwise `Ok(n)` with the receiver count. -/
inductive SendResult
  | ok (n : Nat)
  | error
deriving DecidableEq

/-- `notifier.send(())` (`main.rs` line 345): never blocks; fails only when
no receiver is subscribed. -/
def csend (c : Channel) : Channel × SendResult :=
  if c.receivers = 0 then (c, SendResult.error)
  else ({ c with sendCount := c.sendCount + 1 }, SendResult.ok c.receivers)

/-- Iterated `csend`: the channel after `n` further publishes. -/
def csendN (c : Channel) : Nat → Channel
  | 0 => c
  | n + 1 => (csend (csendN c n)).1

/-- Ring-buffer capacity of the broadcast channel, from
`broadcast::channel::<()>(100)` (`main.rs` line 163). -/
def broadcastCapacity : Nat := 100

/-- Result of `broadcast::Receiver::recv` for a receiver whose next
position is `pos`: pending when nothing new was sent; `Ok` when the backlog
fits in the ring; `Lagged` when more than `broadcastCapacity` messages are
pending, in which case the receiver is repositioned to the oldest retained
message (`sendCount - broadcastCapacity`) — i.e. the oldest pending
notifications are dropped (tokio drop-oldest overflow semantics). -/
inductive RecvOutcome
  | ok (newPos : Nat)
  | lagged (newPos : Nat)
  | pending
deriving DecidableEq

/-- `rx.recv().await` of the broadcast receiver (tokio semantics of the
channel created at `main.rs` line 163). -/
def crecv (c : Channel) (pos : Nat) : RecvOutcome :=
  if c.sendCount ≤ pos then RecvOutcome.pending
  else if c.sendCount - pos ≤ broadcastCapacity then RecvOutcome.ok (pos + 1)
  else RecvOutcome.lagged (c.sendCount - broadcastCapacity)

/-- One observable step of the `event_stream` loop
(`main.rs` 140-148): `while let Ok(_) = rx.recv().await { yield reload }`.
An `Ok` receive yields a reload event; any `Err` — including `Lagged`, the
overflow signal — falls out of the `while let` and ends the stream. -/
inductive StreamStep
  | yielded (data : String) (newPos : Nat)
  | terminated
  | waiting
deriving DecidableEq

/-- The body of `event_stream`'s loop (`main.rs` 140-148), one iteration. -/
def event_stream_step (c : Channel) (pos : Nat) : StreamStep :=
  match crecv c pos with
  | RecvOutcome.ok p => StreamStep.yielded ("reload") p
  | RecvOutcome.lagged _ => StreamStep.terminated
  | RecvOutcome.pending => StreamStep.waiting

/-- `AppState` (`main.rs` 289-296).  `html_content` is the value behind the
`Arc<RwLock<String>>`; the lock discipline itself is modelled separately by
`RWState`/`RWStep` below. -/
structure AppState where
  html_content : String
  css_content : String
  fonts : Fonts
  file_path : String
  notifier : Channel
  file_name : String
deriving DecidableEq

/-- The store-level effect of the commit `*html_content = html_output`
(`main.rs` line 344): the new rendering replaces the whole store value.
Note there is no version counter anywhere in `AppState`. -/
def storePublish (store html_output : String) : String := html_output

/-- `snapshot`: what a reader of the store obtains (`serve_html` reads
`html_content` under the read lock, `main.rs` 379-389). -/
def snapshot (s : AppState) : String := s.html_content

/-- Follows the spec's words, for comparison with the code: §3 DATA MODEL —
"ContentRevision: \x7b html: string, version: u64 \x7d". The code's store
(`storePublish` on a bare `String`) has no counterpart of `version`. -/
structure ContentRevisionSpec where
  html : String
  version : Nat
deriving DecidableEq

/-- Follows the spec's words: §4.2 — "`publish(html)` atomically installs a
new ContentRevision with `version = previous_version + 1`". -/
def publishSpec (r : ContentRevisionSpec) (h : String) : ContentRevisionSpec :=
  { html := h, version := r.version + 1 }

/-- The intermediate states of the spawned commit task (`main.rs` 342-348),
in statement order: initial state, after `*html_content = html_output`,
after `notifier.send(())`. -/
def commitTaskTrace (s : AppState) (h : String) : List AppState :=
  let s1 : AppState := { s with html_content := h }
  let s2 : AppState := { s1 with notifier := (csend s1.notifier).1 }
  [s, s1, s2]

/-- The completed commit task (`main.rs` 342-348): install the new HTML,
then publish the notification.  A failed send (`Err` when no receiver) is
only logged (`eprintln!`, line 346); nothing is rolled back. -/
def commitAndNotify (s : AppState) (h : String) : AppState :=
  let s1 : AppState := { s with html_content := h }
  { s1 with notifier := (csend s1.notifier).1 }

/-- Outcome of `std::fs::read_to_string` at `main.rs` line 337. -/
inductive ReadResult
  | ok (content : String)
  | error (e : String)
deriving DecidableEq

/-- The watch event kinds the loop distinguishes (`main.rs` line 335):
`EventKind::Modify(_)` versus everything else. -/
inductive EventKind
  | modify
  | other
deriving DecidableEq

/-- Handling of one successfully received watch event (`main.rs` 334-354),
with the external markdown renderer passed as `render` and the file-system
read outcome passed as `read`.  On `Modify` + successful read:
render, then commit-and-notify.  On `Modify` + failed read: only
`eprintln!` (line 351) — the state is untouched.  Other kinds: ignored. -/
def watch_markdown_file_on_event (render : String → String) (s : AppState)
    (kind : EventKind) (read : ReadResult) : AppState :=
  match kind with
  | EventKind.modify =>
    match read with
    | ReadResult.ok markdown_input => commitAndNotify s (render markdown_input)
    | ReadResult.error _ => s
  | EventKind.other => s

/-- One iteration of the `for res in rx_notify` loop (`main.rs` 332-360):
a watch error (`Err(e)`) is only logged (line 357). -/
def watch_loop_iteration (render : String → String) (s : AppState)
    (res : Except String EventKind) (read : ReadResult) : AppState :=
  match res with
  | Except.ok k => watch_markdown_file_on_event render s k read
  | Except.error _ => s

/-! ### Watch-backend selection and server startup -/

/-- The two watch backends of `watch_markdown_file` (`main.rs` 304-330). -/
inductive Backend
  | native
  | poll
deriving DecidableEq

/-- Backend selection (`main.rs` line 310): `PollWatcher` iff
`check_for_wsl2()`, `RecommendedWatcher` otherwise.  This is the only place
the polling backend can be chosen; there is no failure-driven fallback. -/
def chooseBackend (wsl2 : Bool) : Backend :=
  if wsl2 then Backend.poll else Backend.native

/-- Establishing the selected watcher (`main.rs` 310-330).  Each branch
calls `.unwrap()` on construction and on `.watch(...)`; an error in the
selected backend is a panic, and the other backend's initializer is never
consulted. -/
def watcher_setup (wsl2 : Bool) (nativeInit pollInit : Except String Unit) :
    Except String Unit :=
  match chooseBackend wsl2 with
  | Backend.poll => pollInit
  | Backend.native => nativeInit

/-- Status of the watcher task. -/
inductive TaskStatus
  | running
  | panicked (e : String)
deriving DecidableEq

/-- `tokio::task::spawn_blocking(move || watch_markdown_file(...))`
(`main.rs` line 175).  The `JoinHandle` is dropped, so a panic inside the
closure (the `.unwrap()`s of `watcher_setup`) is caught by the runtime and
confined to the task: the process is NOT aborted. -/
def spawn_blocking_watcher (setup : Except String Unit) : TaskStatus :=
  match setup with
  | Except.ok _ => TaskStatus.running
  | Except.error e => TaskStatus.panicked e

/-- Command-line arguments (`main.rs` 21-35). -/
structure Args where
  file : Option String
  host : String
  port : Nat
  static_mode : Bool
deriving DecidableEq

/-- Observable outcome of `run_server_mode` (`main.rs` 150-211).
`earlyExit` is the `eprintln! + std::process::exit(1)` at lines 154-155,
which runs before the file is read, before the watcher task is spawned and
before `warp::serve(...).run(...)` binds; `serving` records that the HTTP
server runs (line 207) together with the status of the watcher task. -/
inductive ServerOutcome
  | earlyExit (code : Nat)
  | serving (file : String) (watcher : TaskStatus)
deriving DecidableEq

/-- `run_server_mode` (`main.rs` 150-211), with the watcher-establishment
outcome supplied as `setup`.  With no input file the process exits with
code 1 (lines 153-156); otherwise the watcher task is spawned (a setup
failure panics only that task) and the server serves. -/
def run_server_mode (a : Args) (setup : Except String Unit) : ServerOutcome :=
  match a.file with
  | none => ServerOutcome.earlyExit 1
  | some f => ServerOutcome.serving f (spawn_blocking_watcher setup)

/-- Where document text comes from. -/
inductive InputSource
  | stdin
  | fromFile (f : String)
deriving DecidableEq

/-- Input selection of `run_static_mode` (`main.rs` 51-69): a named file
when given, otherwise stdin. -/
def static_input_source (a : Args) : InputSource :=
  match a.file with
  | none => InputSource.stdin
  | some f => InputSource.fromFile f

/-! ### The SSE route -/

/-- Shape of an SSE reply as wired in the source: which path serves it,
the data payload of each emitted event, and whether the reply stream is
wrapped in `warp::sse::keep_alive()`. -/
structure SseRoute where
  path_segment : String
  method : String
  event_data : String
  keep_alive : Bool
deriving DecidableEq

/-- The route actually registered (`main.rs` 183-190):
`warp::path("events").and(warp::get())` mapped to
`warp::sse::reply(event_stream(rx))` — the stream is passed to
`warp::sse::reply` directly, with no `keep_alive()` wrapper; each event is
`sse::Event::default().data("reload")` (line 144). -/
def sse_route : SseRoute :=
  { path_segment := "events", method := "GET", event_data := "reload",
    keep_alive := false }

/-- The reply built by the function `sse_handler` (`main.rs` 363-377),
which DOES wrap the stream in `warp::sse::keep_alive()` — but this
function is never referenced by any route in `run_server_mode`. -/
def sse_handler_reply : SseRoute :=
  { path_segment := "events", method := "GET", event_data := "reload",
    keep_alive := true }

/-- Standard EventSource framing of a data-only event record, as the spec's
network-surface section describes it. -/
def sseFrame (d : String) : String := "data: " ++ d ++ "\n\n"

/-! ### The render pipeline -/

/-- `pulldown_latex::config::DisplayMode` (`main.rs` 242-246). -/
inductive DisplayMode
  | inline
  | block
deriving DecidableEq

/-- `render_latex_to_mathml` (`main.rs` 237-256).  The external
pulldown-latex parser + `push_mathml` pipeline is abstracted as the
parameter `push_mathml : DisplayMode → String → Except String String`; the
function selects the display mode from `inline` and propagates the
library's `Ok`/`Err` verbatim. -/
def render_latex_to_mathml
    (push_mathml : DisplayMode → String → Except String String)
    (latex : String) (inline : Bool) : Except String String :=
  let mode := if inline then DisplayMode.inline else DisplayMode.block
  push_mathml mode latex

/-- `render_inline_latex_to_html` (`main.rs` 258-261): a parse error is
absorbed into an error-marker span via `unwrap_or_else`. -/
def render_inline_latex_to_html
    (push_mathml : DisplayMode → String → Except String String)
    (latex : String) : String :=
  match render_latex_to_mathml push_mathml latex true with
  | Except.ok m => m
  | Except.error e =>
      "<span class=\"math math-inline math-error\">" ++ e ++ "</span>"

/-- `render_display_latex_to_html` (`main.rs` 263-266). -/
def render_display_latex_to_html
    (push_mathml : DisplayMode → String → Except String String)
    (latex : String) : String :=
  match render_latex_to_mathml push_mathml latex false with
  | Except.ok m => m
  | Except.error e =>
      "<span class=\"math math-display math-error\">" ++ e ++ "</span>"

/-- Events of the external pulldown-cmark parser, restricted to the shapes
`render_markdown_to_html` inspects (`main.rs` 227-232); every other event
is passed through unchanged and is collapsed into `other`. -/
inductive MdEvent
  | softBreak
  | inlineMath (s : String)
  | displayMath (s : String)
  | html (s : String)
  | other (tag : String)
deriving DecidableEq

/-- The per-event mapping of `render_markdown_to_html` (`main.rs`
227-232). -/
def mapEvent (push_mathml : DisplayMode → String → Except String String) :
    MdEvent → MdEvent
  | MdEvent.softBreak => MdEvent.html ("<br>")
  | MdEvent.inlineMath s =>
      MdEvent.html (render_inline_latex_to_html push_mathml s)
  | MdEvent.displayMath s =>
      MdEvent.html (render_display_latex_to_html push_mathml s)
  | e => e

/-- `render_markdown_to_html` (`main.rs` 220-235): the external parser and
`html::push_html` serializer are parameters; the function maps every parsed
event through `mapEvent` and serializes. -/
def render_markdown_to_html
    (parse : String → List MdEvent)
    (push_html : List MdEvent → String)
    (push_mathml : DisplayMode → String → Except String String)
    (markdown_input : String) : String :=
  push_html ((parse markdown_input).map (mapEvent push_mathml))

/-! ### The read/write lock on the Content Store

The store write `*html_content = html_output` happens under
`html_content.write().await` and the store read under
`html_content.read().await` (`main.rs` 343, 380).  To show that the lock is
what rules out torn reads, the assignment is modelled at character
granularity: the writer clears the cell and appends the new value one
character at a time while holding the write lock; readers can only run
while the lock is free (`phase = idle`). -/

/-- Writer phase of the `RwLock`: free, or holding the write lock with
`todo` characters of `target` still to be copied into the cell. -/
inductive WPhase
  | idle
  | writing (todo : List Char) (target : List Char)
deriving DecidableEq

/-- The locked cell: current raw contents of the memory, the last fully
committed value (what a completed read returns), and the writer phase. -/
structure RWState where
  store : List Char
  committed : List Char
  phase : WPhase
deriving DecidableEq

/-- Initial state: one fully committed value, lock free. -/
def rwInit (v : List Char) : RWState :=
  { store := v, committed := v, phase := WPhase.idle }

/-- Atomic steps of the single writer (`main.rs` 342-344): acquire the
write lock and start installing `n`; copy one character; release the lock,
committing the installed value.  There is no step allowing a reader to run
while `phase` is `writing` — that is the `RwLock` exclusion. -/
inductive RWStep : RWState → RWState → Prop
  | beginWrite (st c n : List Char) :
      RWStep { store := st, committed := c, phase := WPhase.idle }
             { store := [], committed := c, phase := WPhase.writing n n }
  | putChar (st c : List Char) (x : Char) (td tgt : List Char) :
      RWStep { store := st, committed := c, phase := WPhase.writing (x :: td) tgt }
             { store := st ++ [x], committed := c, phase := WPhase.writing td tgt }
  | endWrite (st c tgt : List Char) :
      RWStep { store := st, committed := c, phase := WPhase.writing [] tgt }
             { store := st, committed := st, phase := WPhase.idle }

/-- Finitely many interleaved steps. -/
inductive RWSteps : RWState → RWState → Prop
  | refl (s : RWState) : RWSteps s s
  | tail {s t u : RWState} : RWSteps s t → RWStep t u → RWSteps s u

/-- Lock invariant: when the lock is free the cell holds exactly the
committed value; while writing, the cell plus the pending characters equal
the full target. -/
def RWInv : RWState → Prop
  | { store := st, committed := c, phase := WPhase.idle } => st = c
  | { store := st, committed := _, phase := WPhase.writing td tgt } => st ++ td = tgt

/-! ## Helper lemmas -/

theorem rwinv_step {s t : RWState} (hstep : RWStep s t) (hinv : RWInv s) :
    RWInv t := by
  cases hstep with
  | beginWrite st c n => simp [RWInv]
  | putChar st c x td tgt =>
      simp only [RWInv] at hinv ⊢
      simpa [List.append_assoc] using hinv
  | endWrite st c tgt => simp [RWInv]

theorem rwinv_steps {s t : RWState} (hs : RWSteps s t) (hinv : RWInv s) :
    RWInv t := by
  induction hs with
  | refl => exact hinv
  | tail h1 h2 ih => exact rwinv_step h2 ih

theorem rwsteps_head {s t u : RWState} (h1 : RWStep s t) (h2 : RWSteps t u) :
    RWSteps s u := by
  induction h2 with
  | refl => exact RWSteps.tail (RWSteps.refl s) h1
  | tail hst hstep ih => exact RWSteps.tail ih hstep

theorem write_progress : ∀ (td st c tgt : List Char), st ++ td = tgt →
    RWSteps { store := st, committed := c, phase := WPhase.writing td tgt }
            { store := tgt, committed := tgt, phase := WPhase.idle } := by
  intro td
  induction td with
  | nil =>
      intro st c tgt h
      simp only [List.append_nil] at h
      subst h
      exact RWSteps.tail (RWSteps.refl _) (RWStep.endWrite st c st)
  | cons x td ih =>
      intro st c tgt h
      apply rwsteps_head (RWStep.putChar st c x td tgt)
      apply ih (st ++ [x]) c tgt
      simpa [List.append_assoc] using h

theorem csendN_one_receiver (n : Nat) :
    csendN { sendCount := 0, receivers := 1 } n =
      { sendCount := n, receivers := 1 } := by
  induction n with
  | zero => rfl
  | succ n ih => simp [csendN, ih, csend]

/-- Sanity check of the spec-side model: the spec's `publish` does bump the
version — the mismatch settled in the claims below is that the code's store
has no version at all. -/
theorem publishSpec_version_increases (r : ContentRevisionSpec) (h : String) :
    (publishSpec r h).version = r.version + 1 := rfl

/-! ## Claims -/

/-- Claim C1, counterexample.  The claim says the Content Store pairs the
HTML with a u64 version, every publish installing `previous_version + 1`.
The code's store is a bare `String` (`Arc<RwLock<String>>`, `main.rs` 290)
and the publish is `*html_content = html_output` (`storePublish`).
Publishing the same content twice from store "a" leaves the store
literally identical, so no function of the store state can increase by one
at every publish: no version number exists. -/
theorem store_version_not_present :
    storePublish (storePublish ("a") ("x")) ("x") = storePublish ("a") ("x") ∧
    ¬ ∃ version : String → Nat,
        ∀ st h : String, version (storePublish st h) = version st + 1 := by
  constructor
  · rfl
  · rintro ⟨version, hv⟩
    have h1 := hv ("a") ("a")
    simp [storePublish] at h1

/-- Claim C1, amended.  The Content Store holds only the rendered HTML
string, with no version number: each successful publish installs the new
rendering as the entire store value (so the snapshot after a commit is
exactly the committed HTML, and re-publishing identical content leaves the
store unchanged). -/
theorem content_store_holds_html_only :
    (∀ st h : String, storePublish st h = h) ∧
    (∀ (s : AppState) (h : String),
      snapshot (commitAndNotify s h) = storePublish (snapshot s) h) ∧
    (∀ st h : String, storePublish (storePublish st h) h = storePublish st h) :=
  ⟨fun _ _ => rfl, fun _ _ => rfl, fun _ _ => rfl⟩

/-- Claim C2.  A `Modify` event whose file read fails is only logged
(`main.rs` 350-352): the state is returned unchanged, so the stored HTML is
still the previous revision and the notification counter has not moved —
no subscriber is notified. -/
theorem read_failure_leaves_state :
    ∀ (render : String → String) (s : AppState) (e : String),
      watch_markdown_file_on_event render s EventKind.modify (ReadResult.error e) = s ∧
      (watch_markdown_file_on_event render s EventKind.modify
          (ReadResult.error e)).html_content = s.html_content ∧
      (watch_markdown_file_on_event render s EventKind.modify
          (ReadResult.error e)).notifier.sendCount = s.notifier.sendCount :=
  fun _ _ _ => ⟨rfl, rfl, rfl⟩

/-- Claim C3, counterexample.  A subscriber registered before 101 publishes
(position 0, channel capacity 100) and still connected afterwards: its next
receive observes the overflow (`Lagged`), the `while let Ok(_)` loop of
`event_stream` (`main.rs` 143) exits, and the stream is terminated — the
subscriber receives no notification after the 101st publish, contradicting
both the liveness part and "the subscriber is not terminated". -/
theorem lagged_subscriber_terminated :
    csendN { sendCount := 0, receivers := 1 } 101 =
      { sendCount := 101, receivers := 1 } ∧
    event_stream_step (csendN { sendCount := 0, receivers := 1 } 101) 0 =
      StreamStep.terminated := by
  refine ⟨csendN_one_receiver 101, ?_⟩
  rw [csendN_one_receiver]
  decide

/-- Claim C3, amended.  The broadcaster's send never blocks (it always
returns, incrementing the counter whenever any receiver exists); a
subscriber whose pending backlog never exceeds the 100-slot queue receives
a reload notification at its next receive after a publish; and when the
backlog does exceed the queue, the oldest pending notifications are
dropped (the receiver is repositioned to the oldest retained one) — but
the subscriber's event stream is then terminated at its next receive (the
`while let Ok` recv loop exits on the lag error), so liveness holds only
for subscribers that never overflow. -/
theorem broadcast_drop_oldest_liveness :
    (∀ c : Channel, c.receivers ≠ 0 →
      ((csend c).1).sendCount = c.sendCount + 1) ∧
    (∀ (c : Channel) (pos : Nat), pos < c.sendCount →
      c.sendCount - pos ≤ broadcastCapacity →
      event_stream_step c pos = StreamStep.yielded ("reload") (pos + 1)) ∧
    (∀ (c : Channel) (pos : Nat), broadcastCapacity < c.sendCount - pos →
      crecv c pos = RecvOutcome.lagged (c.sendCount - broadcastCapacity)) := by
  refine ⟨?_, ?_, ?_⟩
  · intro c h
    simp [csend, h]
  · intro c pos h1 h2
    have h1' : ¬ c.sendCount ≤ pos := Nat.not_le.mpr h1
    simp [event_stream_step, crecv, h1', h2]
  · intro c pos h
    have hc : broadcastCapacity = 100 := rfl
    have h1 : ¬ c.sendCount ≤ pos := by omega
    have h2 : ¬ (c.sendCount - pos ≤ broadcastCapacity) := by omega
    simp [crecv, h1, h2]

/-- Witness for `broadcast_drop_oldest_liveness` at a concrete channel:
five pending publishes, one receiver, subscriber at position 0. -/
theorem broadcast_drop_oldest_liveness_witness :
    event_stream_step { sendCount := 5, receivers := 1 } 0 =
      StreamStep.yielded ("reload") 1 :=
  broadcast_drop_oldest_liveness.2.1 { sendCount := 5, receivers := 1 } 0
    (by decide) (by decide)

/-- Claim C4, counterexample.  The reply actually registered on the
"events" path (`main.rs` 183-190) passes the stream to `warp::sse::reply`
directly, without the `warp::sse::keep_alive()` wrapper — so the served
stream, while correctly framed, has no keep-alive pings. -/
theorem events_route_no_keep_alive :
    ¬ (sseFrame sse_route.event_data = "data: reload\n\n" ∧
       sse_route.keep_alive = true) := by
  decide

/-- Claim C4, amended.  The route on the "events" path answers GET with a
stream of reload directives framed as EventSource records
(`data: reload` followed by a blank line), but the reply that is actually
served is built without keep-alive pings; the keep-alive-wrapped variant
exists only in the unrouted function `sse_handler` (`main.rs` 363-377). -/
theorem events_route_framing :
    sse_route.path_segment = "events" ∧
    sse_route.method = "GET" ∧
    sseFrame sse_route.event_data = "data: reload\n\n" ∧
    sse_route.keep_alive = false ∧
    sse_handler_reply.keep_alive = true := by
  decide

/-- Claim C5.  In the commit task spawned for a successfully handled
`Modify` event (`main.rs` 342-348) the statements run in order: the store
assignment precedes the notification send.  Formally: at every
intermediate state of the task, if the notification counter has moved at
all, the new HTML is already installed; the handler for a successful read
is exactly render-then-commit-then-notify; and the task's final state is
the commit-and-notify result. -/
theorem notify_after_commit :
    (∀ (s : AppState) (h : String) (st : AppState), st ∈ commitTaskTrace s h →
      st.notifier.sendCount ≠ s.notifier.sendCount → st.html_content = h) ∧
    (∀ (render : String → String) (s : AppState) (md : String),
      watch_markdown_file_on_event render s EventKind.modify (ReadResult.ok md) =
        commitAndNotify s (render md)) ∧
    (∀ (s : AppState) (h : String),
      commitTaskTrace s h = [s, { s with html_content := h }, commitAndNotify s h]) := by
  refine ⟨?_, fun _ _ _ => rfl, fun _ _ => rfl⟩
  intro s h st hmem hne
  simp only [commitTaskTrace, List.mem_cons, List.not_mem_nil, or_false] at hmem
  rcases hmem with rfl | rfl | rfl
  · exact absurd rfl hne
  · rfl
  · rfl

/-- Witness for `notify_after_commit`: a concrete one-receiver state; the
post-commit state has the new HTML and a bumped send counter. -/
theorem notify_after_commit_witness :
    (⟨"new", "css", ⟨"fr", "fm", "fl", "fav"⟩, "a.md",
      { sendCount := 1, receivers := 1 }, "a.md"⟩ : AppState).html_content =
      "new" :=
  notify_after_commit.1
    (⟨"old", "css", ⟨"fr", "fm", "fl", "fav"⟩, "a.md",
      { sendCount := 0, receivers := 1 }, "a.md"⟩ : AppState)
    ("new")
    (⟨"new", "css", ⟨"fr", "fm", "fl", "fav"⟩, "a.md",
      { sendCount := 1, receivers := 1 }, "a.md"⟩ : AppState)
    (by decide) (by decide)

/-- Claim C6, counterexample.  With a file argument present, WSL2 false and
the native backend failing to initialize — even while the polling backend
would succeed — the process does NOT abort: the `.unwrap()` panic happens
inside the `spawn_blocking` task whose `JoinHandle` is dropped
(`main.rs` 175), so the watcher task dies and `warp::serve` still runs,
serving the initial render without any watcher. -/
theorem watch_failure_not_fatal :
    run_server_mode
        ⟨some ("README.md"), "127.0.0.1", 3030, false⟩
        (watcher_setup false (Except.error ("inotify init failed"))
          (Except.ok ())) =
      ServerOutcome.serving ("README.md")
        (TaskStatus.panicked ("inotify init failed")) := rfl

/-- Claim C6, amended.  If the selected watch backend cannot be
established, the watcher task panics without attempting the alternate
backend (the poll initializer is never consulted when WSL2 is false), and
the panic is confined to the spawned blocking task: the server continues
to serve the initially rendered content without any watcher instead of
aborting startup. -/
theorem watch_failure_confined :
    ∀ (f host : String) (port : Nat) (e : String) (p : Except String Unit),
      run_server_mode ⟨some f, host, port, false⟩
          (watcher_setup false (Except.error e) p) =
        ServerOutcome.serving f (TaskStatus.panicked e) ∧
      watcher_setup false (Except.error e) p = Except.error e :=
  fun _ _ _ _ _ => ⟨rfl, rfl⟩

/-- Claim C7.  For every UTF-8 input and every behaviour of the external
LaTeX library, the inline and display renderers return an HTML string: a
successful parse is passed through, and a parse failure degrades to the
error-marker span instead of failing the render (`main.rs` 258-266); the
markdown pipeline is the total composition of the external parser, the
event mapping and the serializer (`main.rs` 220-235). -/
theorem render_tolerates_all_input :
    (∀ (pm : DisplayMode → String → Except String String) (latex : String),
      (∃ m, render_latex_to_mathml pm latex true = Except.ok m ∧
        render_inline_latex_to_html pm latex = m) ∨
      (∃ e, render_latex_to_mathml pm latex true = Except.error e ∧
        render_inline_latex_to_html pm latex =
          "<span class=\"math math-inline math-error\">" ++ e ++ "</span>")) ∧
    (∀ (pm : DisplayMode → String → Except String String) (latex : String),
      (∃ m, render_latex_to_mathml pm latex false = Except.ok m ∧
        render_display_latex_to_html pm latex = m) ∨
      (∃ e, render_latex_to_mathml pm latex false = Except.error e ∧
        render_display_latex_to_html pm latex =
          "<span class=\"math math-display math-error\">" ++ e ++ "</span>")) ∧
    (∀ (parse : String → List MdEvent) (push_html : List MdEvent → String)
       (pm : DisplayMode → String → Except String String) (md : String),
      render_markdown_to_html parse push_html pm md =
        push_html ((parse md).map (mapEvent pm))) := by
  refine ⟨?_, ?_, fun _ _ _ _ => rfl⟩
  · intro pm latex
    cases h : render_latex_to_mathml pm latex true with
    | ok m =>
        exact Or.inl ⟨m, rfl, by simp [render_inline_latex_to_html, h]⟩
    | error e =>
        exact Or.inr ⟨e, rfl, by simp [render_inline_latex_to_html, h]⟩
  · intro pm latex
    cases h : render_latex_to_mathml pm latex false with
    | ok m =>
        exact Or.inl ⟨m, rfl, by simp [render_display_latex_to_html, h]⟩
    | error e =>
        exact Or.inr ⟨e, rfl, by simp [render_display_latex_to_html, h]⟩

/-- Claim C8.  Under the RwLock discipline (readers run only while the
write lock is free): (1) whenever the lock is free, the cell holds exactly
the last fully committed value, so a reader observes a complete revision,
never a torn mix; (2) a writer holding the lock completes — the lock is
released after finitely many steps, so no operation blocks indefinitely;
(3) a release from a consistent writing state commits exactly the complete
new revision. -/
theorem content_store_no_torn_reads :
    (∀ (v : List Char) (s : RWState), RWSteps (rwInit v) s →
      s.phase = WPhase.idle → s.store = s.committed) ∧
    (∀ (c tgt : List Char),
      RWSteps { store := [], committed := c, phase := WPhase.writing tgt tgt }
              { store := tgt, committed := tgt, phase := WPhase.idle }) ∧
    (∀ (c tgt : List Char) (u : RWState),
      RWStep { store := tgt, committed := c, phase := WPhase.writing [] tgt } u →
      u = { store := tgt, committed := tgt, phase := WPhase.idle }) := by
  refine ⟨?_, ?_, ?_⟩
  · intro v s hreach hidle
    have hinv := rwinv_steps hreach (by simp [rwInit, RWInv])
    obtain ⟨st, c, ph⟩ := s
    simp only at hidle
    subst hidle
    simpa [RWInv] using hinv
  · intro c tgt
    exact write_progress tgt [] c tgt (by simp)
  · intro c tgt u hstep
    cases hstep
    rfl

/-- Witness for `content_store_no_torn_reads` at concrete states: the
initial state is consistent; a writer installing `['n']` over old value
`['o']` completes; the final release commits the full new value. -/
theorem content_store_no_torn_reads_witness :
    (rwInit (['a'])).store = (rwInit (['a'])).committed ∧
    RWSteps { store := [], committed := ['o'], phase := WPhase.writing (['n']) (['n']) }
            { store := ['n'], committed := ['n'], phase := WPhase.idle } ∧
    ({ store := ['n'], committed := ['n'], phase := WPhase.idle } : RWState) =
      { store := ['n'], committed := ['n'], phase := WPhase.idle } :=
  ⟨content_store_no_torn_reads.1 (['a']) (rwInit (['a']))
      (RWSteps.refl _) rfl,
   content_store_no_torn_reads.2.1 (['o']) (['n']),
   content_store_no_torn_reads.2.2 (['o']) (['n']) _
      (RWStep.endWrite (['n']) (['o']) (['n']))⟩

/-- Claim C9.  When no subscriber is registered, `notifier.send(())`
returns an error, which is only logged (`main.rs` 345-347): the commit
still installs the new HTML and the resulting state is exactly the input
state with the HTML replaced — nothing is rolled back and the channel is
untouched. -/
theorem commit_independent_of_subscribers :
    ∀ (s : AppState) (h : String), s.notifier.receivers = 0 →
      (csend s.notifier).2 = SendResult.error ∧
      commitAndNotify s h = { s with html_content := h } := by
  intro s h hr
  constructor
  · simp [csend, hr]
  · simp [commitAndNotify, csend, hr]

/-- Witness for `commit_independent_of_subscribers`: a concrete state with
three past sends and zero receivers. -/
theorem commit_independent_of_subscribers_witness :
    (csend { sendCount := 3, receivers := 0 }).2 = SendResult.error ∧
    commitAndNotify
        (⟨"old", "css", ⟨"fr", "fm", "fl", "fav"⟩, "a.md",
          { sendCount := 3, receivers := 0 }, "a.md"⟩ : AppState) ("new") =
      (⟨"new", "css", ⟨"fr", "fm", "fl", "fav"⟩, "a.md",
          { sendCount := 3, receivers := 0 }, "a.md"⟩ : AppState) :=
  commit_independent_of_subscribers
    (⟨"old", "css", ⟨"fr", "fm", "fl", "fav"⟩, "a.md",
      { sendCount := 3, receivers := 0 }, "a.md"⟩ : AppState)
    ("new") rfl

/-- Claim C10.  In live (server) mode with no file argument the program
exits with code 1 (the `eprintln! + exit(1)` at `main.rs` 154-155 runs
before the watcher is spawned and before the server binds — `earlyExit`
carries no serving or watcher data by construction); stdin is read only on
the static-mode path, and whenever the server actually serves, its input
came from a named file. -/
theorem live_mode_requires_file :
    (∀ (a : Args) (setup : Except String Unit), a.file = none →
      run_server_mode a setup = ServerOutcome.earlyExit 1) ∧
    (∀ a : Args, static_input_source a = InputSource.stdin → a.file = none) ∧
    (∀ (a : Args) (setup : Except String Unit) (f : String) (w : TaskStatus),
      run_server_mode a setup = ServerOutcome.serving f w → a.file = some f) := by
  refine ⟨?_, ?_, ?_⟩
  · intro a setup h
    simp [run_server_mode, h]
  · intro a h
    cases hf : a.file with
    | none => rfl
    | some g => simp [static_input_source, hf] at h
  · intro a setup f w h
    cases hf : a.file with
    | none => simp [run_server_mode, hf] at h
    | some g =>
        simp only [run_server_mode, hf, ServerOutcome.serving.injEq] at h
        rw [h.1]

/-- Witness for `live_mode_requires_file`: concrete default arguments with
no file in live mode. -/
theorem live_mode_requires_file_witness :
    run_server_mode ⟨none, "127.0.0.1", 3030, false⟩ (Except.ok ()) =
      ServerOutcome.earlyExit 1 :=
  live_mode_requires_file.1 ⟨none, "127.0.0.1", 3030, false⟩ (Except.ok ()) rfl
